import Mathlib

/-!
Verification of the frameworke repository (a family of front-end UI
frameworks).  The development shallowly embeds the parts of the source that
the checked properties are about:

* the component lifecycle of `initView`
  (`src/packages/client/lib/makers/initView.js`),
* the keyed list reconciliation of `MapComponent.update`
  (`src/packages/client/src/elements/text.ts`),
* the router store's `onRouteChange` layer diffing (`src/unnamed/part_008`),
* the `Store` class lifecycle (`src/unnamed/part_006`),
* the markup builder `toMarkup` (`src/unnamed/part_009`),
* the spring animation helper (`src/unnamed/part_007`),
* the view explorer's name derivation and collection formatting
  (`src/packages/view/frame/index.js`).

DOM nodes and component instances are identified by natural numbers; DOM
effects and lifecycle hook invocations are modelled as explicit event traces.
-/

/-! ### Component lifecycle (`initView`) -/

/-- One observable effect of a view component produced by `initView`
(`src/packages/client/lib/makers/initView.js`): a lifecycle hook invocation
(hooks are identified by their registration index), a DOM mount/unmount, or
the release of all active subscriptions. -/
inductive ViewEvent where
  | beforeConnectHook (i : Nat)
  | mount (parent : Nat) (after : Option Nat)
  | afterConnectHook (i : Nat)
  | beforeDisconnectHook (i : Nat)
  | unmount
  | afterDisconnectHook (i : Nat)
  | unsubscribeAll
  deriving DecidableEq, Repr

/-- State of one component instance produced by `initView`: how many
callbacks are registered for each lifecycle phase (the
`beforeConnectCallbacks` … arrays) and the `isConnected` flag. -/
structure ViewComponent where
  beforeConnectCallbacks : Nat
  afterConnectCallbacks : Nat
  beforeDisconnectCallbacks : Nat
  afterDisconnectCallbacks : Nat
  isConnected : Bool
  deriving DecidableEq, Repr

/-- `component.connect(parent, after)` from `initView.js` (lines 279-301):
records `wasConnected`, runs every `beforeConnect` callback when it was not
connected, inserts the element, sets `isConnected = true`, then runs every
`afterConnect` callback when it was not connected. -/
def ViewComponent.connect (c : ViewComponent) (parent : Nat) (after : Option Nat) :
    ViewComponent × List ViewEvent :=
  let wasConnected := c.isConnected
  let pre :=
    if wasConnected then []
    else (List.range c.beforeConnectCallbacks).map ViewEvent.beforeConnectHook
  let post :=
    if wasConnected then []
    else (List.range c.afterConnectCallbacks).map ViewEvent.afterConnectHook
  ({ c with isConnected := true }, pre ++ [ViewEvent.mount parent after] ++ post)

/-- `component.disconnect()` from `initView.js` (lines 309-363) with the
default `allowTransitionOut = false` (the branch without a transition-out
promise): when connected it runs every `beforeDisconnect` callback, removes
the element, sets `isConnected = false`, runs every `afterDisconnect`
callback and unsubscribes all subscriptions; otherwise it does nothing. -/
def ViewComponent.disconnect (c : ViewComponent) : ViewComponent × List ViewEvent :=
  if c.isConnected then
    ({ c with isConnected := false },
      (List.range c.beforeDisconnectCallbacks).map ViewEvent.beforeDisconnectHook
        ++ [ViewEvent.unmount]
        ++ (List.range c.afterDisconnectCallbacks).map ViewEvent.afterDisconnectHook
        ++ [ViewEvent.unsubscribeAll])
  else (c, [])

/-! ### Keyed list reconciliation (`MapComponent.update`) -/

/-- One tracking entry of `MapComponent`
(`src/packages/client/src/elements/text.ts`): the item's position, its key
(computed by the caller-supplied `getKey`) and the component instance
rendered for it.  Component instances are identified by numbers; `createItem`
is modelled as drawing the next fresh number from a counter. -/
structure MapStateItem (K : Type) where
  index : Nat
  key : K
  component : Nat
  deriving DecidableEq, Repr

/-- A DOM effect performed in `MapComponent.update`'s deferred
animation-frame pass: disconnecting a removed component, or connecting a
component after the root node of the previous component (`none` meaning the
list's own anchor node). -/
inductive MapEvent where
  | disconnect (component : Nat)
  | connect (component : Nat) (after : Option Nat)
  deriving DecidableEq, Repr

/-- The `newState` construction loop of `MapComponent.update` (lines
100-119): walk the new keys in order; a key already tracked reuses that
entry's component (`this.state.find(x => x.key === key)!.component`), an
untracked key calls `createItem` (modelled as taking the fresh id `next`).
`isAdded` in the source tests membership of the key in the precomputed
`added` list, which holds exactly the untracked keys, so it is the
`find? = none` test used here.  Returns the new tracking array and the
updated fresh-id counter. -/
def mapBuildNewState {K : Type} [DecidableEq K] (state : List (MapStateItem K)) :
    List K → Nat → Nat → List (MapStateItem K) × Nat
  | [], _, next => ([], next)
  | k :: rest, i, next =>
    match state.find? (fun x => decide (x.key = k)) with
    | some tracked =>
      let r := mapBuildNewState state rest (i + 1) next
      (⟨i, k, tracked.component⟩ :: r.1, r.2)
    | none =>
      let r := mapBuildNewState state rest (i + 1) (next + 1)
      (⟨i, k, next⟩ :: r.1, r.2)

/-- The remount loop of `MapComponent.update`'s animation-frame callback
(lines 130-138): connect each component of the new state in order, each
after the previous component's root node (starting from the list's anchor,
modelled as `none`). -/
def mapRemountEvents {K : Type} : List (MapStateItem K) → Option Nat → List MapEvent
  | [], _ => []
  | item :: rest, prev => MapEvent.connect item.component prev :: mapRemountEvents rest (some item.component)

/-- `MapComponent.update(list)` from `src/packages/client/src/elements/text.ts`
(lines 69-142): computes the new keys, the `removed` entries (tracked keys
absent from the new key list), builds the next tracking state reusing
components for persisting keys and creating components for added keys, and
batches the DOM changes (disconnect removed components, then remount in new
order) into an animation frame.  Arguments: current tracking `state`, fresh
component counter `next`, the new source array `list` and the key function.
Returns the new tracking state, the new counter and the deferred DOM events. -/
def mapUpdate {K : Type} [DecidableEq K] {T : Type} (state : List (MapStateItem K))
    (next : Nat) (list : List T) (getKey : T → K) :
    List (MapStateItem K) × Nat × List MapEvent :=
  let newKeys := list.map getKey
  let removed := state.filter (fun t => decide (t.key ∉ newKeys))
  let built := mapBuildNewState state newKeys 0 next
  let removeEvents := removed.filterMap
    (fun e => (state.find? (fun x => decide (x.key = e.key))).map
      (fun t => MapEvent.disconnect t.component))
  (built.1, built.2, removeEvents ++ mapRemountEvents built.1 none)

/-! ### Router store (`onRouteChange`, `src/unnamed/part_008`) -/

/-- An entry of the router's `activeLayers` stack: the layer's numeric id
(assigned at route registration), the DOM handle rendered for it (a number),
and the handle's `connected` flag (read by the deferred animation-frame
callback before disconnecting). -/
structure ActiveLayer where
  id : Nat
  handle : Nat
  connected : Bool
  deriving DecidableEq, Repr

/-- A DOM/history effect of the router's `onRouteChange`. -/
inductive RouterEvent where
  | historyReplace (path : String)
  | disconnectHandle (handle : Nat)
  | setChildren (parentHandle : Nat) (child : Nat)
  | setRootChildren (child : Nat)
  deriving DecidableEq, Repr

/-- Replace the first occurrence of `pat` in a list (the semantics of
JavaScript `String.prototype.replace` with a plain-string search value,
which replaces only the first occurrence, used both by the router's
redirect-parameter substitution and — after array-to-string coercion — by
the view explorer's case converters).  An empty pattern matches at
position 0. -/
def listReplaceFirst {α : Type} [DecidableEq α] (pat repl : List α) : List α → List α
  | [] => if pat = [] then repl else []
  | c :: rest =>
    if pat.isPrefixOf (c :: rest) then repl ++ (c :: rest).drop pat.length
    else c :: listReplaceFirst pat repl rest

/-- JavaScript `s.replace(pat, repl)` for a plain-string `pat` (first
occurrence only; `repl` contains no `$` group references that could match,
so it is inserted literally). -/
def jsReplaceFirst (s pat repl : String) : String :=
  String.mk (listReplaceFirst pat.data repl.data s.data)

/-- The redirect-path substitution of `onRouteChange` (lines 481-492 of
`src/unnamed/part_008`): for each matched param, replace `":" + key` in the
redirect target with the param's value. -/
def substituteParams (path : String) (params : List (String × String)) : String :=
  params.foldl (fun p kv => jsReplaceFirst p (":" ++ kv.1) kv.2) path

/-- The layer-diffing loop of `onRouteChange` (lines 509-539 of
`src/unnamed/part_008`): walk the matched layer chain by position `i`,
comparing `activeLayers[i]?.id` with the matched layer's id.  On the first
difference the active stack is truncated to `i` entries, the new layer's
markup is rendered into a fresh handle (drawn from the `next` counter), and
an animation-frame callback is queued that disconnects the old layer at
that position (when present and connected) and hands the new handle to the
previous layer (or to the app's root view when there is none); the new layer
is then pushed onto the stack and the loop continues.  Returns the final
active stack, the fresh-handle counter and the queued events in order. -/
def diffLayerLoop : List Nat → Nat → List ActiveLayer → Nat →
    List ActiveLayer × Nat × List RouterEvent
  | [], _, active, next => (active, next, [])
  | lid :: rest, i, active, next =>
    if (active[i]?).map (fun al => al.id) = some lid then
      diffLayerLoop rest (i + 1) active next
    else
      let truncated := active.take i
      let evs :=
        (match active[i]? with
          | some al => if al.connected then [RouterEvent.disconnectHandle al.handle] else []
          | none => []) ++
        (match truncated.getLast? with
          | some p => [RouterEvent.setChildren p.handle next]
          | none => [RouterEvent.setRootChildren next])
      let r := diffLayerLoop rest (i + 1) (truncated ++ [⟨lid, next, true⟩]) (next + 1)
      (r.1, r.2.1, evs ++ r.2.2)

/-- A location delivered by the history listener: pathname and raw query
string. -/
structure RouterLocation where
  pathname : String
  search : String
  deriving DecidableEq, Repr

/-- The result of `matchRoutes` for a pathname (the route matcher itself is
the vendored `@borf/bedrock` library, outside this repository): matched
pattern, concrete path, extracted params, optional redirect target and the
route's layer chain (ids). -/
structure MatchedRoute where
  pattern : String
  path : String
  params : List (String × String)
  redirect : Option String
  layers : List Nat
  deriving DecidableEq, Repr

/-- The router store's observable state plus the mutable locals of its
setup closure (`$$pattern`, `$$path`, `$$params`, `$$query`, `lastQuery`,
`isRouteChange`, `activeLayers`) and the fresh-handle counter that models
`renderMarkupToDOM`/`getRenderHandle` producing new handles. -/
structure RouterState where
  pattern : Option String
  path : String
  params : List (String × String)
  query : List (String × String)
  lastQuery : Option String
  isRouteChange : Bool
  activeLayers : List ActiveLayer
  nextHandle : Nat
  deriving DecidableEq, Repr

/-- `onRouteChange` from `src/unnamed/part_008` (lines 459-542),
parameterised by the vendored helpers `parseQueryParams` and `matchRoutes`:
refresh the query state when the raw query string changed; on no match set
the pattern to `null`, publish the raw pathname as the path and as the only
(wildcard) param and return; on a redirect match substitute params into the
target and issue a history replace; otherwise publish path/params and, when
the matched pattern differs from the current one, run the layer diff. -/
def onRouteChange (parseQuery : String → List (String × String))
    (matchRoutes : String → Option MatchedRoute)
    (st : RouterState) (loc : RouterLocation) : RouterState × List RouterEvent :=
  let st :=
    if st.lastQuery ≠ some loc.search then
      { st with lastQuery := some loc.search, isRouteChange := true,
                query := parseQuery loc.search }
    else st
  match matchRoutes loc.pathname with
  | none =>
    ({ st with pattern := none, path := loc.pathname,
               params := [("wildcard", loc.pathname)] }, [])
  | some matched =>
    match matched.redirect with
    | some redirect =>
      (st, [RouterEvent.historyReplace (substituteParams redirect matched.params)])
    | none =>
      let st := { st with path := matched.path, params := matched.params }
      if some matched.pattern ≠ st.pattern then
        let st := { st with pattern := some matched.pattern }
        let r := diffLayerLoop matched.layers 0 st.activeLayers st.nextHandle
        ({ st with activeLayers := r.1, nextHandle := r.2.1 }, r.2.2)
      else (st, [])

/-- The fresh layers pushed by `diffLayerLoop` from the first mismatching
position on: one per remaining matched layer id, with handles drawn
sequentially from the counter, all connected. -/
def freshLayers : List Nat → Nat → List ActiveLayer
  | [], _ => []
  | lid :: rest, next => ⟨lid, next, true⟩ :: freshLayers rest (next + 1)

/-- The attachment events produced for the fresh layers: the first is handed
to `parent` (`none` meaning the app's root view), each subsequent one to the
handle created just before it. -/
def layerAttachEvents : List Nat → Option Nat → Nat → List RouterEvent
  | [], _, _ => []
  | _ :: rest, parent, next =>
    (match parent with
      | some p => RouterEvent.setChildren p next
      | none => RouterEvent.setRootChildren next) :: layerAttachEvents rest (some next) (next + 1)

/-! ### Store lifecycle (`src/unnamed/part_006`) -/

/-- One observable effect of the `Store` class lifecycle
(`src/unnamed/part_006`): setup (`#initialize`), the `beforeConnect` phase
(`#inputs.connect()`), the base-class and outlet connect/disconnect calls,
the registered `onConnect`/`onDisconnect` callbacks (by registration index),
the stop of an active subscription (from `#stopCallbacks`, by index) and the
`#inputs.disconnect()` call of the `beforeDisconnect` phase. -/
inductive StoreEvent where
  | runSetup
  | inputsConnect
  | baseConnect
  | outletConnect
  | onConnectHook (i : Nat)
  | stopSubscription (i : Nat)
  | inputsDisconnect
  | outletDisconnect
  | baseDisconnect
  | onDisconnectHook (i : Nat)
  deriving DecidableEq, Repr

/-- Modelled from the spec: the state of one `Store` instance.  The
`Connectable` base class is imported from `./Connectable.js`, which is not
under `src/`; per §3 "DOM handle" a handle exposes a boolean connected flag
with `connect` inserting its node and `disconnect` removing it, so
`baseConnected` (the `this.isConnected` the `Store` methods read) is set by
the base-class calls.  `flagConnected` is the store's private
`#isConnected` field (written by `afterConnect`/`afterDisconnect`, read by
`ctx.observe`).  The counts model the registered `onConnect`/`onDisconnect`
callback arrays and the `#stopCallbacks` array of active subscriptions. -/
structure StoreState where
  baseConnected : Bool
  flagConnected : Bool
  onConnectCallbacks : Nat
  onDisconnectCallbacks : Nat
  stopCallbacks : Nat
  deriving DecidableEq, Repr

/-- `Store.connect` from `src/unnamed/part_006` (lines 359-373): when not
already connected it first runs `#initialize` (the setup function) and
`beforeConnect` (`#inputs.connect()`); it always calls `super.connect` and
`#outlet.connect`; and when not already connected it finishes with
`afterConnect`, which sets `#isConnected = true` and runs every registered
`onConnect` callback. -/
def storeConnect (s : StoreState) : StoreState × List StoreEvent :=
  let wasConnected := s.baseConnected
  let events :=
    (if wasConnected then [] else [StoreEvent.runSetup, StoreEvent.inputsConnect])
      ++ [StoreEvent.baseConnect, StoreEvent.outletConnect]
      ++ (if wasConnected then []
          else (List.range s.onConnectCallbacks).map StoreEvent.onConnectHook)
  ({ s with baseConnected := true,
            flagConnected := if wasConnected then s.flagConnected else true }, events)

/-- `Store.disconnect` from `src/unnamed/part_006` (lines 375-388), exactly
as written: it records `wasConnected = this.isConnected` and then guards
both the `beforeDisconnect` phase (stopping every `#stopCallbacks`
subscription and disconnecting inputs) and the `afterDisconnect` phase
(clearing `#isConnected` and running every `onDisconnect` callback) behind
`if (!wasConnected)` — i.e. the hooks run only when the store was NOT
connected; the outlet and base-class disconnects always run. -/
def storeDisconnect (s : StoreState) : StoreState × List StoreEvent :=
  let wasConnected := s.baseConnected
  let events :=
    (if wasConnected then []
      else (List.range s.stopCallbacks).map StoreEvent.stopSubscription
        ++ [StoreEvent.inputsDisconnect])
      ++ [StoreEvent.outletDisconnect, StoreEvent.baseDisconnect]
      ++ (if wasConnected then []
          else (List.range s.onDisconnectCallbacks).map StoreEvent.onDisconnectHook)
  ({ s with baseConnected := false,
            stopCallbacks := if wasConnected then s.stopCallbacks else 0,
            flagConnected := if wasConnected then s.flagConnected else false }, events)

/-! ### Markup builder (`toMarkup`, `src/unnamed/part_009`) -/

/-- The value wrapped by a `$text` markup node: a string, a number, or an
observable (`Readable`, identified here by a number). -/
inductive TextSource where
  | str (s : String)
  | num (n : Int)
  | readable (id : Nat)
  deriving DecidableEq, Repr

/-- A markup node as far as `toMarkup` distinguishes them: a `$text` node
built by `makeMarkup("$text", { value })`, or an already-built markup object
(passed through unchanged, identified by a number). -/
inductive MarkupRef where
  | textNode (v : TextSource)
  | node (id : Nat)
  deriving DecidableEq, Repr

mutual
/-- A JavaScript value passed as a child to the markup builder
(`toMarkup` in `src/unnamed/part_009`): `null`, `undefined`, a boolean, a
string, a number, an observable, a markup object, a (nested) array, or any
other value (functions, plain objects, …, identified by a number). -/
inductive Renderable where
  | nullVal
  | undefinedVal
  | boolVal (b : Bool)
  | strVal (s : String)
  | numVal (n : Int)
  | readableVal (id : Nat)
  | markupVal (m : MarkupRef)
  | arr (xs : RenderableList)
  | otherVal (id : Nat)

/-- A JavaScript array of renderables (a separate inductive so the
flattening recursion is structural). -/
inductive RenderableList where
  | nil
  | cons (x : Renderable) (xs : RenderableList)
end

/-- `array.flat(Infinity)`: flatten nested arrays to unlimited depth,
leaving non-array elements in place. -/
def flattenList : RenderableList → List Renderable
  | .nil => []
  | .cons (Renderable.arr ys) xs => flattenList ys ++ flattenList xs
  | .cons x xs => x :: flattenList xs

/-- The wrapping `if (!isArray(renderables)) renderables = [renderables]`
plus `flat(Infinity)` at the start of `toMarkup`. -/
def flattenOne : Renderable → List Renderable
  | .arr xs => flattenList xs
  | x => [x]

/-- The filter of `toMarkup` (line 55 of `src/unnamed/part_009`):
`x !== null && x !== undefined && x !== false`.  Note only the boolean
`false` is dropped; `true` is kept (and later rejected). -/
def keepChild : Renderable → Bool
  | .nullVal => false
  | .undefinedVal => false
  | .boolVal b => b
  | _ => true

/-- The classification in `toMarkup`'s map (lines 56-67): markup passes
through; strings, numbers and readables become `$text` nodes; anything else
throws `Unexpected child type`. -/
def childToMarkup : Renderable → Except String MarkupRef
  | .markupVal m => .ok m
  | .strVal s => .ok (.textNode (.str s))
  | .numVal n => .ok (.textNode (.num n))
  | .readableVal r => .ok (.textNode (.readable r))
  | _ => .error "Unexpected child type"

/-- `toMarkup` from `src/unnamed/part_009` (lines 48-68): wrap a non-array
argument in an array, flatten to unlimited depth, drop `null`/`undefined`/
`false`, then map each remaining entry through the classification (the
first invalid entry throws). -/
def toMarkup (renderables : Renderable) : Except String (List MarkupRef) :=
  ((flattenOne renderables).filter keepChild).mapM childToMarkup

/-- A remaining entry the spec declares valid: a Markup node, a string, a
number, or an observable. -/
def isValidChild : Renderable → Bool
  | .markupVal _ => true
  | .strVal _ => true
  | .numVal _ => true
  | .readableVal _ => true
  | _ => false

/-- The wrapping the spec describes for a valid remaining entry (markup is
returned unchanged, the rest become `$text` nodes).  The fallback for
invalid entries is arbitrary; it is only ever applied under an
all-valid hypothesis. -/
def specWrapChild : Renderable → MarkupRef
  | .markupVal m => m
  | .strVal s => .textNode (.str s)
  | .numVal n => .textNode (.num n)
  | .readableVal r => .textNode (.readable r)
  | _ => .textNode (.str "")

/-! ### Spring animation helper (`src/unnamed/part_007`) -/

/-- The options argument of `spring`/`animateTo`: every field optional
(`Readable` wrappers are modelled as already unwrapped plain numbers;
`endWindow` is a frame count). -/
structure SpringOptions where
  mass : Option ℝ
  stiffness : Option ℝ
  damping : Option ℝ
  velocity : Option ℝ
  endAmplitude : Option ℝ
  endWindow : Option ℕ

/-- The resolved spring parameters. -/
structure ResolvedSpringOptions where
  mass : ℝ
  stiffness : ℝ
  damping : ℝ
  velocity : ℝ
  endAmplitude : ℝ
  endWindow : ℕ

/-- The default resolution at the top of `spring`
(`src/unnamed/part_007`, lines 52-57): `options?.mass ?? 2`,
`options?.stiffness ?? 1200`, `options?.damping ?? 160`,
`options?.velocity ?? 5`, `options?.endAmplitude ?? 0.001`,
`options?.endWindow ?? 20`. -/
def resolveSpringOptions (options : Option SpringOptions) : ResolvedSpringOptions :=
  { mass := (options.bind (fun o => o.mass)).getD 2
    stiffness := (options.bind (fun o => o.stiffness)).getD 1200
    damping := (options.bind (fun o => o.damping)).getD 160
    velocity := (options.bind (fun o => o.velocity)).getD 5
    endAmplitude := (options.bind (fun o => o.endAmplitude)).getD 0.001
    endWindow := (options.bind (fun o => o.endWindow)).getD 20 }

/-- The solver returned by `makeSpringSolver` (`src/unnamed/part_007`,
lines 133-160), evaluated at elapsed time `t` (seconds): computes the
damping ratio and natural speed, the underdamped or the critically/over-
damped oscillator position, and returns `1 - position`. -/
noncomputable def springSolve (mass stiffness damping initialVelocity t : ℝ) : ℝ :=
  let dampingRatio := damping / (2 * Real.sqrt (stiffness * mass))
  let speed := Real.sqrt (stiffness / mass)
  if dampingRatio < 1 then
    let dampedSpeed := speed * Real.sqrt (1 - dampingRatio * dampingRatio)
    let B := (dampingRatio * speed + -initialVelocity) / dampedSpeed
    1 - ((Real.cos (dampedSpeed * t) + B * Real.sin (dampedSpeed * t)) *
      Real.exp (-t * speed * dampingRatio))
  else
    let B := speed + -initialVelocity
    1 - ((1 + B * t) * Real.exp (-t * speed))

/-- The value written by `animateTo`'s frame step (line 100 of
`src/unnamed/part_007`): `startValue + (endValue - startValue) * proportion`
with `proportion = solve(elapsedTime / 1000)` (here `t` is already in
seconds). -/
noncomputable def springValueAt (mass stiffness damping velocity start endv t : ℝ) : ℝ :=
  start + (endv - start) * springSolve mass stiffness damping velocity t

/-- Modelled from the spec: the damped-harmonic-oscillator position of
§4.9, written from the spec's own formulas — with
ζ = damping / (2·√(stiffness·mass)) and ω = √(stiffness/mass): when ζ < 1,
Position(t) = [cos(ωd·t) + B·sin(ωd·t)]·e^(−t·ω·ζ) with ωd = ω·√(1−ζ²) and
B = (ζ·ω − v₀)/ωd; otherwise Position(t) = (1 + B·t)·e^(−t·ω) with
B = ω − v₀. -/
noncomputable def specSpringPosition (mass stiffness damping v0 t : ℝ) : ℝ :=
  let dampingRatio := damping / (2 * Real.sqrt (stiffness * mass))
  let speed := Real.sqrt (stiffness / mass)
  if dampingRatio < 1 then
    let dampedSpeed := speed * Real.sqrt (1 - dampingRatio ^ 2)
    let B := (dampingRatio * speed - v0) / dampedSpeed
    (Real.cos (dampedSpeed * t) + B * Real.sin (dampedSpeed * t)) *
      Real.exp (-t * speed * dampingRatio)
  else
    let B := speed - v0
    (1 + B * t) * Real.exp (-t * speed)

/-- An in-flight spring animation: the id drawn from `nextId`, and the
start value and target captured by `animateTo`'s closure. -/
structure SpringAnimation where
  id : Nat
  startValue : ℝ
  endValue : ℝ

/-- The mutable state of one `spring(initialValue)` instance
(`src/unnamed/part_007`): the backing writable's current value, the current
animation id (`undefined` when no animation is in flight), the id counter
and the in-flight animation's captured parameters. -/
structure SpringState where
  currentValue : ℝ
  currentAnimationId : Option Nat
  nextId : Nat
  animation : Option SpringAnimation

/-- `snapTo` (lines 64-67): clears the current animation id and sets the
value immediately. -/
noncomputable def springSnapTo (s : SpringState) (newValue : ℝ) : SpringState :=
  { s with currentAnimationId := none, currentValue := newValue }

/-- The synchronous part of `animateTo` (lines 69-114): under a
reduced-motion preference it degrades to `snapTo`; otherwise it draws a
fresh id, captures the start value (`$$currentValue.get()`) and the target,
makes that id current and schedules the first frame — without writing the
value. -/
noncomputable def springAnimateTo (s : SpringState) (reducedMotion : Bool)
    (endValue : ℝ) : SpringState :=
  if reducedMotion then springSnapTo s endValue
  else
    { s with nextId := s.nextId + 1,
             currentAnimationId := some s.nextId,
             animation := some ⟨s.nextId, s.currentValue, endValue⟩ }

/-- The spring's `set` (lines 120-122): calls `animateTo(newValue)` with
the spring's own options. -/
noncomputable def springSet (s : SpringState) (reducedMotion : Bool)
    (newValue : ℝ) : SpringState :=
  springAnimateTo s reducedMotion newValue

/-- The spring's `update` (lines 123-126): computes
`callback($$currentValue.get())` and calls `animateTo` on the result. -/
noncomputable def springUpdate (s : SpringState) (reducedMotion : Bool)
    (callback : ℝ → ℝ) : SpringState :=
  springAnimateTo s reducedMotion (callback s.currentValue)

/-- `amplitude.sample(value)` of `makeAmplitudeMeasurer` (lines 162-181):
push the sample and shift from the front while more than `resolution`
samples are stored. -/
def amplitudeSample (samples : List ℝ) (v : ℝ) (resolution : ℕ) : List ℝ :=
  let s := samples ++ [v]
  s.drop (s.length - resolution)

/-- `Math.max(...list)` over a nonempty list (the empty case never occurs
with the positive default window). -/
noncomputable def listMax : List ℝ → ℝ
  | [] => 0
  | x :: xs => xs.foldl max x

/-- `Math.min(...list)` over a nonempty list. -/
noncomputable def listMin : List ℝ → ℝ
  | [] => 0
  | x :: xs => xs.foldl min x

/-- `amplitude.value`: `null` until `resolution` samples have been
collected, then the max-minus-min spread of the stored samples. -/
noncomputable def amplitudeValue (samples : List ℝ) (resolution : ℕ) : Option ℝ :=
  if samples.length < resolution then none
  else some (listMax samples - listMin samples)

/-- One animation-frame `step` of `animateTo` (lines 91-110) at elapsed
seconds `t`: a stale frame (current animation id differs from the closure's
id) resolves without touching the state; a live frame writes
`startValue + (endValue - startValue) * solve(t)`, samples the proportion
and then runs the end check of line 104,
`if (amplitude.value && amplitude.value < _endAmplitude)`: the measured
amplitude must be TRUTHY — not `null` (too few samples) and not exactly `0`
(an all-equal window) — and below the end threshold before the current
animation id is cleared and the value snapped exactly to `endValue`. -/
noncomputable def springStep (mass stiffness damping velocity endAmp : ℝ)
    (endWindow : ℕ) (anim : SpringAnimation) (samples : List ℝ)
    (s : SpringState) (t : ℝ) : SpringState × List ℝ :=
  if s.currentAnimationId ≠ some anim.id then (s, samples)
  else
    let proportion := springSolve mass stiffness damping velocity t
    let s1 := { s with currentValue :=
      anim.startValue + (anim.endValue - anim.startValue) * proportion }
    let samples1 := amplitudeSample samples proportion endWindow
    match amplitudeValue samples1 endWindow with
    | some a =>
      if a ≠ 0 ∧ a < endAmp then
        ({ s1 with currentAnimationId := none, currentValue := anim.endValue }, samples1)
      else (s1, samples1)
    | none => (s1, samples1)

/-! ### View explorer name derivation (`src/packages/view/frame/index.js`) -/

/-- The NUL character, JavaScript's `"\0"`, used by the case converters as
the internal word delimiter. -/
def nulChar : Char := Char.ofNat 0

/-- The string JavaScript's `String.prototype.replace` actually searches
for on line 218/246 of `src/packages/view/frame/index.js`: `SPLIT_REGEXP`
there is an ARRAY of two regexes, and a non-RegExp search value is coerced
with `toString()` (array elements joined by commas) and looked up as a
literal substring. -/
def splitRegexpCoerced : String := "/([a-z0-9])([A-Z])/g,/([A-Z])([A-Z][a-z])/g"

/-- The replacement string `"$1\0$2"`; with a plain-string search value
there are no capture groups, so `$1`/`$2` are inserted literally. -/
def splitReplacement : String := "$1\x00$2"

/-- A character matched by `[A-Z0-9]` with the `i` flag: an ASCII letter or
digit. -/
def isAsciiAlnum (c : Char) : Bool :=
  ('A' ≤ c && c ≤ 'Z') || ('a' ≤ c && c ≤ 'z') || ('0' ≤ c && c ≤ '9')

/-- `STRIP_REGEXP = /[^A-Z0-9]+/gi` applied with replacement `"\0"`: every
maximal run of non-alphanumeric characters collapses to a single NUL.
`prevSep` records whether the previous character belonged to such a run. -/
def stripRunsAux : Bool → List Char → List Char
  | _, [] => []
  | prevSep, c :: rest =>
    if isAsciiAlnum c then c :: stripRunsAux false rest
    else if prevSep then stripRunsAux true rest
    else nulChar :: stripRunsAux true rest

/-- The strip step starting outside any run. -/
def stripRuns (s : List Char) : List Char := stripRunsAux false s

/-- The delimiter trimming of `sentenceCase`/`slugCase` (lines 221-230):
drop NULs from both ends. -/
def trimNul (s : List Char) : List Char :=
  ((s.dropWhile (fun c => c == nulChar)).reverse.dropWhile (fun c => c == nulChar)).reverse

/-- JavaScript `split("\0")` (an empty string yields `[""]`). -/
def splitOnNul : List Char → List (List Char)
  | [] => [[]]
  | c :: rest =>
    let r := splitOnNul rest
    if c == nulChar then [] :: r
    else
      match r with
      | t :: ts => (c :: t) :: ts
      | [] => [[c]]

/-- The shared pipeline of `sentenceCase` and `slugCase`
(`src/packages/view/frame/index.js`, lines 216-268): the (array-coerced)
split replace, the strip replace, delimiter trimming, splitting on the
delimiter and per-word lowercasing. -/
def caseWords (input : String) : List (List Char) :=
  let afterSplit := listReplaceFirst splitRegexpCoerced.data splitReplacement.data input.data
  let afterStrip := stripRuns afterSplit
  (splitOnNul (trimNul afterStrip)).map (fun w => w.map Char.toLower)

/-- `slugCase` (lines 244-268): join the lowercased words with hyphens. -/
def slugCase (input : String) : String :=
  String.mk (List.intercalate ['-'] (caseWords input))

/-- `sentenceCase` (lines 216-242): join the lowercased words with spaces
and uppercase the first character of the whole result
(`result[0].toUpperCase() + result.slice(1)`; the empty case would throw in
the source and never occurs for the inputs considered here). -/
def sentenceCase (input : String) : String :=
  match List.intercalate [' '] (caseWords input) with
  | [] => ""
  | c :: rest => String.mk (c.toUpper :: rest)

/-- `s.endsWith(x)` on code points. -/
def strEndsWith (s suffix : String) : Bool :=
  suffix.data.isSuffixOf s.data

/-- `s.startsWith(x)` on code points. -/
def strStartsWith (s pre : String) : Bool :=
  pre.data.isPrefixOf s.data

/-- `s.slice(0, s.length - n)` on code points. -/
def strDropRight (s : String) (n : Nat) : String :=
  String.mk (s.data.take (s.data.length - n))

/-- `"/" + data.relativePath.replace(/\.view\.[jt]sx?$/, "")` (line 36 of
`src/packages/view/frame/index.js`): strip a
`.view.js`/`.view.jsx`/`.view.ts`/`.view.tsx` suffix (the regex is anchored
at the end, so at most one of the four alternatives applies). -/
def stripViewSuffix (p : String) : String :=
  if strEndsWith p ".view.jsx" then strDropRight p 9
  else if strEndsWith p ".view.tsx" then strDropRight p 9
  else if strEndsWith p ".view.js" then strDropRight p 8
  else if strEndsWith p ".view.ts" then strDropRight p 8
  else p

/-- `joinPath` from `src/packages/view/frame/index.js` (lines 270-286):
prefix each part with `/` when missing, drop a trailing `/`, concatenate. -/
def framePathJoin (parts : List String) : String :=
  parts.foldl
    (fun url part =>
      let part1 := if strStartsWith part "/" then part else "/" ++ part
      let part2 := if strEndsWith part1 "/" then strDropRight part1 1 else part1
      url ++ part2) ""

/-- A view entry of a collection as far as C9 is concerned: its `name` and
its display `path`. -/
structure ExplorerViewEntry where
  name : String
  path : String
  deriving DecidableEq, Repr

/-- The view entry `formatCollection` produces for a file whose exports are
a single function (`src/packages/view/frame/index.js`, lines 34-118): `fns`
holds the one entry named `"@default"` (line 47), the helper's `name` is
initialised to `sentenceCase(name)` (line 61), and the pushed entry's path
appends `joinPath(collection.path, slugCase(helpers.name))` unless
`helpers.name` is exactly `"@default"` (lines 104-107).  The view function
is assumed not to overwrite `helpers.name`. -/
def formatSingleFnCollection (relativePath : String) : ExplorerViewEntry :=
  let collectionPath := "/" ++ stripViewSuffix relativePath
  let helperName := sentenceCase "@default"
  { name := helperName
    path := if helperName = "@default" then collectionPath
            else framePathJoin [collectionPath, slugCase helperName] }

/-- C1: connecting an already-connected `initView` component only repositions
its DOM node (a single mount event, no hook events, state unchanged);
connecting a disconnected component runs every `beforeConnect` callback
before the mount and every `afterConnect` callback after it, each exactly
once; disconnecting a connected component runs each disconnect-phase hook
exactly once; disconnect on a disconnected component is a no-op; and a
disconnect followed by a reconnect re-invokes the connect hooks exactly once
for that transition. -/
theorem initView_lifecycle_edges (n₁ n₂ n₃ n₄ p p' : Nat) (a a' : Option Nat) :
    (ViewComponent.connect ⟨n₁, n₂, n₃, n₄, true⟩ p' a').2 = [ViewEvent.mount p' a'] ∧
    (ViewComponent.connect ⟨n₁, n₂, n₃, n₄, true⟩ p' a').1 = ⟨n₁, n₂, n₃, n₄, true⟩ ∧
    (ViewComponent.connect ⟨n₁, n₂, n₃, n₄, false⟩ p a).2 =
      (List.range n₁).map ViewEvent.beforeConnectHook
        ++ [ViewEvent.mount p a]
        ++ (List.range n₂).map ViewEvent.afterConnectHook ∧
    (ViewComponent.connect ⟨n₁, n₂, n₃, n₄, false⟩ p a).1 = ⟨n₁, n₂, n₃, n₄, true⟩ ∧
    (ViewComponent.disconnect ⟨n₁, n₂, n₃, n₄, true⟩).2 =
      (List.range n₃).map ViewEvent.beforeDisconnectHook
        ++ [ViewEvent.unmount]
        ++ (List.range n₄).map ViewEvent.afterDisconnectHook
        ++ [ViewEvent.unsubscribeAll] ∧
    (ViewComponent.disconnect ⟨n₁, n₂, n₃, n₄, true⟩).1 = ⟨n₁, n₂, n₃, n₄, false⟩ ∧
    ViewComponent.disconnect ⟨n₁, n₂, n₃, n₄, false⟩ = (⟨n₁, n₂, n₃, n₄, false⟩, []) ∧
    ((ViewComponent.disconnect ⟨n₁, n₂, n₃, n₄, true⟩).1.connect p a).2 =
      (List.range n₁).map ViewEvent.beforeConnectHook
        ++ [ViewEvent.mount p a]
        ++ (List.range n₂).map ViewEvent.afterConnectHook := by
  simp [ViewComponent.connect, ViewComponent.disconnect]

theorem filterMap_eq_map_of_mem {α β : Type} :
    ∀ (l : List α) (g : α → Option β) (f : α → β),
      (∀ e ∈ l, g e = some (f e)) → l.filterMap g = l.map f := by
  intro l
  induction l with
  | nil => intro g f _; rfl
  | cons a rest ih =>
    intro g f h
    have ha := h a (List.mem_cons_self a rest)
    rw [List.filterMap_cons, ha, List.map_cons,
      ih g f (fun e he => h e (List.mem_cons_of_mem a he))]

theorem mapBuildNewState_map_key {K : Type} [DecidableEq K] (state : List (MapStateItem K)) :
    ∀ (ks : List K) (i next : Nat),
      (mapBuildNewState state ks i next).1.map (fun x => x.key) = ks := by
  intro ks
  induction ks with
  | nil => intro i next; rfl
  | cons k rest ih =>
    intro i next
    unfold mapBuildNewState
    cases h : state.find? (fun x => decide (x.key = k)) with
    | some tracked => simp [h, ih]
    | none => simp [h, ih]

theorem mapBuildNewState_map_index {K : Type} [DecidableEq K] (state : List (MapStateItem K)) :
    ∀ (ks : List K) (i next : Nat),
      (mapBuildNewState state ks i next).1.map (fun x => x.index) = List.range' i ks.length := by
  intro ks
  induction ks with
  | nil => intro i next; rfl
  | cons k rest ih =>
    intro i next
    unfold mapBuildNewState
    cases h : state.find? (fun x => decide (x.key = k)) with
    | some tracked => simp [h, ih, List.range'_succ]
    | none => simp [h, ih, List.range'_succ]

theorem mapBuildNewState_lookup {K : Type} [DecidableEq K] (state : List (MapStateItem K)) :
    ∀ (ks : List K) (i next j : Nat) (k : K), ks[j]? = some k →
      (mapBuildNewState state ks i next).1[j]? = some
        ⟨i + j, k,
          match state.find? (fun x => decide (x.key = k)) with
          | some tracked => tracked.component
          | none => next + ((ks.take j).filter
              (fun q => (state.find? (fun x => decide (x.key = q))).isNone)).length⟩ := by
  intro ks
  induction ks with
  | nil => intro i next j k h; simp at h
  | cons k0 rest ih =>
    intro i next j k h
    cases j with
    | zero =>
      rw [List.getElem?_cons_zero, Option.some.injEq] at h
      subst h
      cases hf : state.find? (fun x => decide (x.key = k0)) with
      | some tracked => simp [mapBuildNewState, hf]
      | none => simp [mapBuildNewState, hf]
    | succ j' =>
      rw [List.getElem?_cons_succ] at h
      have hr := ih (i + 1) next j' k h
      have hr' := ih (i + 1) (next + 1) j' k h
      cases hf : state.find? (fun x => decide (x.key = k0)) with
      | some tracked =>
        simp only [mapBuildNewState, hf, List.getElem?_cons_succ]
        rw [hr]
        cases hk : state.find? (fun x => decide (x.key = k)) with
        | some t =>
          simp only [Option.some.injEq, MapStateItem.mk.injEq, and_true, true_and]
          omega
        | none =>
          simp only [Option.some.injEq, MapStateItem.mk.injEq, List.take_succ_cons,
            List.filter_cons, hf, Option.isNone_some, Bool.false_eq_true, if_false,
            List.length_cons, and_true, true_and, ite_false, ite_true]
          omega
      | none =>
        simp only [mapBuildNewState, hf, List.getElem?_cons_succ]
        rw [hr']
        cases hk : state.find? (fun x => decide (x.key = k)) with
        | some t =>
          simp only [Option.some.injEq, MapStateItem.mk.injEq, and_true, true_and]
          omega
        | none =>
          simp only [Option.some.injEq, MapStateItem.mk.injEq, List.take_succ_cons,
            List.filter_cons, hf, Option.isNone_none, List.length_cons, and_true,
            true_and, ite_false, ite_true]
          omega

theorem mapBuildNewState_counter {K : Type} [DecidableEq K] (state : List (MapStateItem K)) :
    ∀ (ks : List K) (i next : Nat),
      (mapBuildNewState state ks i next).2 =
        next + (ks.filter
          (fun q => (state.find? (fun x => decide (x.key = q))).isNone)).length := by
  intro ks
  induction ks with
  | nil => intro i next; rfl
  | cons k rest ih =>
    intro i next
    unfold mapBuildNewState
    cases h : state.find? (fun x => decide (x.key = k)) with
    | some tracked => simp [h, ih]
    | none => simp [h, ih]; omega

theorem mapState_find_self {K : Type} [DecidableEq K] :
    ∀ (state : List (MapStateItem K)), (state.map (fun x => x.key)).Nodup →
      ∀ e ∈ state, state.find? (fun x => decide (x.key = e.key)) = some e := by
  intro state
  induction state with
  | nil => intro _ e he; simp at he
  | cons a rest ih =>
    intro hnd e he
    rw [List.map_cons, List.nodup_cons] at hnd
    rcases List.mem_cons.mp he with rfl | hmem
    · simp [List.find?_cons]
    · have hne : ¬(a.key = e.key) := by
        intro hEq
        exact hnd.1 (hEq ▸ List.mem_map_of_mem (fun x => x.key) hmem)
      rw [List.find?_cons]
      simp [hne]
      exact ih hnd.2 e hmem

/-- C2: keyed reconciliation in `MapComponent.update`.  For every previous
tracking state (with pairwise-distinct tracked keys) and every new source
array: a position whose key was already tracked reuses the tracked
component; a position with an untracked key gets a freshly created
component (the counter grows by exactly the number of added positions, so
with pairwise-distinct keys each new key causes exactly one `createItem`
call); the new tracking entries carry the new array's keys and indices in
order; and the deferred animation-frame events disconnect exactly the
components of tracked entries whose key is absent from the new array,
followed by remounting the new state's components in the new order.  In
particular, reordering `[1,2,3]` to `[3,1,2]` (components `10,11,12`,
counter `13`) creates nothing and connects in DOM order `12,10,11`; and
updating to `[1,3,4]` disconnects exactly component `11` (the key-2 entry)
and creates exactly the one component `13` for key 4. -/
theorem mapComponent_update_reconciliation {K T : Type} [DecidableEq K]
    (state : List (MapStateItem K)) (next : Nat) (list : List T) (getKey : T → K)
    (hstate : (state.map (fun x => x.key)).Nodup) :
    (∀ j k tracked, (list.map getKey)[j]? = some k →
        state.find? (fun x => decide (x.key = k)) = some tracked →
        (mapUpdate state next list getKey).1[j]? =
          some (⟨j, k, tracked.component⟩ : MapStateItem K)) ∧
    (∀ j k, (list.map getKey)[j]? = some k →
        state.find? (fun x => decide (x.key = k)) = none →
        (mapUpdate state next list getKey).1[j]? = some (⟨j, k,
          next + (((list.map getKey).take j).filter
            (fun q => (state.find? (fun x => decide (x.key = q))).isNone)).length⟩ :
            MapStateItem K)) ∧
    (mapUpdate state next list getKey).2.1 =
      next + ((list.map getKey).filter
        (fun q => (state.find? (fun x => decide (x.key = q))).isNone)).length ∧
    (mapUpdate state next list getKey).1.map (fun x => x.key) = list.map getKey ∧
    (mapUpdate state next list getKey).1.map (fun x => x.index) =
      List.range (list.map getKey).length ∧
    (mapUpdate state next list getKey).2.2 =
      (state.filter (fun t => decide (t.key ∉ list.map getKey))).map
        (fun t => MapEvent.disconnect t.component)
        ++ mapRemountEvents (mapUpdate state next list getKey).1 none ∧
    mapUpdate [⟨0, 1, 10⟩, ⟨1, 2, 11⟩, ⟨2, 3, 12⟩] 13 [3, 1, 2] (fun n : Nat => n) =
      ([⟨0, 3, 12⟩, ⟨1, 1, 10⟩, ⟨2, 2, 11⟩], 13,
        [MapEvent.connect 12 none, MapEvent.connect 10 (some 12),
          MapEvent.connect 11 (some 10)]) ∧
    mapUpdate [⟨0, 1, 10⟩, ⟨1, 2, 11⟩, ⟨2, 3, 12⟩] 13 [1, 3, 4] (fun n : Nat => n) =
      ([⟨0, 1, 10⟩, ⟨1, 3, 12⟩, ⟨2, 4, 13⟩], 14,
        [MapEvent.disconnect 11, MapEvent.connect 10 none,
          MapEvent.connect 12 (some 10), MapEvent.connect 13 (some 12)]) := by
  refine ⟨?_, ?_, ?_, ?_, ?_, ?_, by decide, by decide⟩
  · intro j k tracked hj hf
    have h := mapBuildNewState_lookup state (list.map getKey) 0 next j k hj
    rw [hf] at h
    simpa [mapUpdate] using h
  · intro j k hj hf
    have h := mapBuildNewState_lookup state (list.map getKey) 0 next j k hj
    rw [hf] at h
    simpa [mapUpdate] using h
  · simpa [mapUpdate] using mapBuildNewState_counter state (list.map getKey) 0 next
  · simpa [mapUpdate] using mapBuildNewState_map_key state (list.map getKey) 0 next
  · simpa [mapUpdate, List.range_eq_range'] using
      mapBuildNewState_map_index state (list.map getKey) 0 next
  · simp only [mapUpdate]
    congr 1
    apply filterMap_eq_map_of_mem
    intro e he
    rw [mapState_find_self state hstate e (List.mem_filter.mp he).1]
    rfl

/-- Witness for C2: the two concrete reconciliation scenarios, obtained by
applying the reconciliation theorem at a concrete tracking state with
pairwise-distinct keys. -/
theorem mapComponent_update_reconciliation_witness :
    mapUpdate [⟨0, 1, 10⟩, ⟨1, 2, 11⟩, ⟨2, 3, 12⟩] 13 [3, 1, 2] (fun n : Nat => n) =
      ([⟨0, 3, 12⟩, ⟨1, 1, 10⟩, ⟨2, 2, 11⟩], 13,
        [MapEvent.connect 12 none, MapEvent.connect 10 (some 12),
          MapEvent.connect 11 (some 10)]) ∧
    mapUpdate [⟨0, 1, 10⟩, ⟨1, 2, 11⟩, ⟨2, 3, 12⟩] 13 [1, 3, 4] (fun n : Nat => n) =
      ([⟨0, 1, 10⟩, ⟨1, 3, 12⟩, ⟨2, 4, 13⟩], 14,
        [MapEvent.disconnect 11, MapEvent.connect 10 none,
          MapEvent.connect 12 (some 10), MapEvent.connect 13 (some 12)]) :=
  ⟨(mapComponent_update_reconciliation [⟨0, 1, 10⟩, ⟨1, 2, 11⟩, ⟨2, 3, 12⟩] 13 [3, 1, 2]
      (fun n : Nat => n) (by decide)).2.2.2.2.2.2.1,
   (mapComponent_update_reconciliation [⟨0, 1, 10⟩, ⟨1, 2, 11⟩, ⟨2, 3, 12⟩] 13 [1, 3, 4]
      (fun n : Nat => n) (by decide)).2.2.2.2.2.2.2⟩

theorem diffLayerLoop_fresh_run :
    ∀ (rest : List Nat) (active : List ActiveLayer) (next : Nat),
      diffLayerLoop rest active.length active next =
        (active ++ freshLayers rest next, next + rest.length,
          layerAttachEvents rest ((active.getLast?).map (fun al => al.handle)) next) := by
  intro rest
  induction rest with
  | nil =>
    intro active next
    simp [diffLayerLoop, freshLayers, layerAttachEvents]
  | cons lid rest ih =>
    intro active next
    have hnone : active[active.length]? = none := by simp
    have hrec := ih (active.take active.length ++ [⟨lid, next, true⟩]) (next + 1)
    rw [List.take_length] at hrec
    have hlen : (active ++ [(⟨lid, next, true⟩ : ActiveLayer)]).length = active.length + 1 := by
      simp
    rw [hlen] at hrec
    rw [diffLayerLoop, if_neg (by simp [hnone])]
    simp only [hnone, List.take_length]
    rw [hrec]
    simp only [freshLayers, layerAttachEvents, List.getLast?_concat, List.append_assoc,
      List.singleton_append, Option.map_some', List.length_cons, List.nil_append,
      Prod.mk.injEq]
    refine ⟨trivial, by omega, ?_⟩
    cases active.getLast? <;> rfl

theorem diffLayerLoop_consume :
    ∀ (ids restL : List Nat) (i : Nat) (active : List ActiveLayer) (next : Nat),
      (∀ j, j < ids.length → (active[i + j]?).map (fun al => al.id) = ids[j]?) →
      diffLayerLoop (ids ++ restL) i active next =
        diffLayerLoop restL (i + ids.length) active next := by
  intro ids
  induction ids with
  | nil => intro restL i active next _; simp
  | cons id0 ids ih =>
    intro restL i active next h
    have h0 := h 0 (by simp)
    rw [Nat.add_zero] at h0
    rw [List.getElem?_cons_zero] at h0
    rw [List.cons_append, diffLayerLoop, if_pos h0]
    have hrest := ih restL (i + 1) active next (fun j hj => by
      have hx := h (j + 1) (by simpa using Nat.succ_lt_succ hj)
      rw [List.getElem?_cons_succ] at hx
      rw [show i + 1 + j = i + (j + 1) by omega]
      exact hx)
    rw [hrest]
    have hidx : i + (id0 :: ids).length = i + 1 + ids.length := by
      simp only [List.length_cons]
      omega
    rw [hidx]

theorem diffLayerLoop_mismatch :
    ∀ (l : Nat) (ls : List Nat) (i : Nat) (active : List ActiveLayer) (next : Nat),
      i ≤ active.length →
      ¬((active[i]?).map (fun al => al.id) = some l) →
      diffLayerLoop (l :: ls) i active next =
        (active.take i ++ freshLayers (l :: ls) next, next + (ls.length + 1),
          (match active[i]? with
            | some al =>
              if al.connected then [RouterEvent.disconnectHandle al.handle] else []
            | none => []) ++
          layerAttachEvents (l :: ls)
            (((active.take i).getLast?).map (fun al => al.handle)) next) := by
  intro l ls i active next hi hmis
  have hlen : (active.take i ++ [(⟨l, next, true⟩ : ActiveLayer)]).length = i + 1 := by
    simp [List.length_take, Nat.min_eq_left hi]
  have hrec := diffLayerLoop_fresh_run ls (active.take i ++ [⟨l, next, true⟩]) (next + 1)
  rw [hlen] at hrec
  rw [diffLayerLoop, if_neg hmis]
  simp only []
  rw [hrec]
  simp only [freshLayers, layerAttachEvents, List.getLast?_concat, List.append_assoc,
    List.singleton_append, Option.map_some', List.length_cons, Prod.mk.injEq]
  refine ⟨trivial, by omega, ?_⟩
  cases (List.take i active).getLast? <;> rfl

/-- C3: the router's layer diffing in `onRouteChange`.  Write the active
stack as `kept ++ restA` and the matched chain as `kept`'s ids followed by
`restL`.  If the matched chain is exactly the ids of `kept` (matched is an
id-prefix of active), the loop changes nothing: all existing view instances
are kept and no DOM event is queued.  If the matched chain continues with a
layer `l` whose id differs from the stack entry at that position
(`restA.head?`), the kept prefix is preserved untouched, the stack is
truncated there, one fresh handle per remaining matched layer is created
(ids in order, handles drawn sequentially), and the queued events first
disconnect the old mismatched layer (when present and connected) and then
attach the first fresh handle to the last kept layer (or to the app's root
view when the mismatch is at position 0) and each further fresh handle to
its predecessor.  Moreover `onRouteChange` runs exactly this loop on the
stored stack whenever a match without redirect has a pattern different from
the current one. -/
theorem router_layer_diffing (kept restA : List ActiveLayer) (next : Nat) :
    (diffLayerLoop (kept.map (fun al => al.id)) 0 (kept ++ restA) next =
      (kept ++ restA, next, [])) ∧
    (∀ l ls, ((restA.head?).map (fun al => al.id) ≠ some l) →
      diffLayerLoop (kept.map (fun al => al.id) ++ l :: ls) 0 (kept ++ restA) next =
        (kept ++ freshLayers (l :: ls) next, next + (ls.length + 1),
          (match restA.head? with
            | some al =>
              if al.connected then [RouterEvent.disconnectHandle al.handle] else []
            | none => []) ++
          layerAttachEvents (l :: ls) ((kept.getLast?).map (fun al => al.handle)) next)) ∧
    (∀ parseQuery matchRoutes st loc m, matchRoutes loc.pathname = some m →
      m.redirect = none → some m.pattern ≠ st.pattern →
      (onRouteChange parseQuery matchRoutes st loc).1.activeLayers =
        (diffLayerLoop m.layers 0 st.activeLayers st.nextHandle).1 ∧
      (onRouteChange parseQuery matchRoutes st loc).2 =
        (diffLayerLoop m.layers 0 st.activeLayers st.nextHandle).2.2) := by
  have hpre : ∀ j, j < (kept.map (fun al => al.id)).length →
      (((kept ++ restA)[0 + j]?).map (fun al => al.id)) = (kept.map (fun al => al.id))[j]? := by
    intro j hj
    rw [List.length_map] at hj
    rw [Nat.zero_add, List.getElem?_append_left hj, List.getElem?_map]
  refine ⟨?_, ?_, ?_⟩
  · have h := diffLayerLoop_consume (kept.map (fun al => al.id)) [] 0 (kept ++ restA) next hpre
    simpa using h
  · intro l ls hmis
    have hidx : (kept ++ restA)[kept.length]? = restA.head? := by
      rw [List.getElem?_append_right (Nat.le_refl kept.length)]
      simp [List.head?_eq_getElem?]
    have h := diffLayerLoop_consume (kept.map (fun al => al.id)) (l :: ls) 0 (kept ++ restA) next hpre
    rw [h]
    have hmis' : ¬(((kept ++ restA)[0 + (kept.map (fun al => al.id)).length]?).map
        (fun al => al.id) = some l) := by
      rw [Nat.zero_add, List.length_map, hidx]
      exact hmis
    have hm := diffLayerLoop_mismatch l ls (0 + (kept.map (fun al => al.id)).length)
      (kept ++ restA) next (by simp) hmis'
    rw [hm]
    rw [Nat.zero_add, List.length_map, hidx, List.take_left]
  · intro parseQuery matchRoutes st loc m hm hr hp
    simp only [onRouteChange, hm, hr]
    split <;> simp [hp]

/-- Witness for C3: active stack `[L1, L2, L3]` (ids 1,2,3; handles
101,102,103) against matched chain `[1, 2, 4]` replaces only index 2:
handle 103 is disconnected, the fresh handle 200 is attached as a child of
L2's handle 102, and L1/L2 keep their handles. -/
theorem router_layer_diffing_witness :
    diffLayerLoop [1, 2, 4] 0 [⟨1, 101, true⟩, ⟨2, 102, true⟩, ⟨3, 103, true⟩] 200 =
      ([⟨1, 101, true⟩, ⟨2, 102, true⟩, ⟨4, 200, true⟩], 201,
        [RouterEvent.disconnectHandle 103, RouterEvent.setChildren 102 200]) :=
  (router_layer_diffing [⟨1, 101, true⟩, ⟨2, 102, true⟩] [⟨3, 103, true⟩] 200).2.1 4 []
    (by decide)

/-- C6: when the pathname matches no registered route, `onRouteChange` sets
the matched-pattern state to `none`, publishes the raw pathname as the path
state and as the only (`wildcard`) entry of the params state, and leaves the
active layer stack (and the fresh-handle counter) entirely unchanged while
queueing no DOM or history event. -/
theorem router_noMatch_untouched (parseQuery : String → List (String × String))
    (matchRoutes : String → Option MatchedRoute) (st : RouterState) (loc : RouterLocation)
    (h : matchRoutes loc.pathname = none) :
    (onRouteChange parseQuery matchRoutes st loc).1.pattern = none ∧
    (onRouteChange parseQuery matchRoutes st loc).1.path = loc.pathname ∧
    (onRouteChange parseQuery matchRoutes st loc).1.params = [("wildcard", loc.pathname)] ∧
    (onRouteChange parseQuery matchRoutes st loc).1.activeLayers = st.activeLayers ∧
    (onRouteChange parseQuery matchRoutes st loc).1.nextHandle = st.nextHandle ∧
    (onRouteChange parseQuery matchRoutes st loc).2 = [] := by
  simp only [onRouteChange, h]
  split <;> simp

/-- Witness for C6: a concrete unmatched location against a concrete router
state with one mounted layer. -/
theorem router_noMatch_untouched_witness :
    (onRouteChange (fun _ => []) (fun _ => none)
        ⟨some "/a", "/a", [], [], none, false, [⟨1, 101, true⟩], 7⟩
        ⟨"/nowhere", ""⟩).1.pattern = none ∧
    (onRouteChange (fun _ => []) (fun _ => none)
        ⟨some "/a", "/a", [], [], none, false, [⟨1, 101, true⟩], 7⟩
        ⟨"/nowhere", ""⟩).1.path = "/nowhere" ∧
    (onRouteChange (fun _ => []) (fun _ => none)
        ⟨some "/a", "/a", [], [], none, false, [⟨1, 101, true⟩], 7⟩
        ⟨"/nowhere", ""⟩).1.params = [("wildcard", "/nowhere")] ∧
    (onRouteChange (fun _ => []) (fun _ => none)
        ⟨some "/a", "/a", [], [], none, false, [⟨1, 101, true⟩], 7⟩
        ⟨"/nowhere", ""⟩).1.activeLayers = [⟨1, 101, true⟩] ∧
    (onRouteChange (fun _ => []) (fun _ => none)
        ⟨some "/a", "/a", [], [], none, false, [⟨1, 101, true⟩], 7⟩
        ⟨"/nowhere", ""⟩).1.nextHandle = 7 ∧
    (onRouteChange (fun _ => []) (fun _ => none)
        ⟨some "/a", "/a", [], [], none, false, [⟨1, 101, true⟩], 7⟩
        ⟨"/nowhere", ""⟩).2 = [] :=
  router_noMatch_untouched (fun _ => []) (fun _ => none)
    ⟨some "/a", "/a", [], [], none, false, [⟨1, 101, true⟩], 7⟩ ⟨"/nowhere", ""⟩ rfl

/-- C4 (code evidence): `Store.disconnect` as written guards both the
`beforeDisconnect` phase (stopping every active subscription,
`#inputs.disconnect()`) and the `afterDisconnect` phase (running the
registered `onDisconnect` callbacks) behind `if (!wasConnected)`.
Disconnecting a CONNECTED store therefore emits only the outlet and
base-class disconnects — no subscription is stopped (the `#stopCallbacks`
array keeps all `k` entries) and no `onDisconnect` callback runs — while
calling `disconnect()` on a store that is NOT connected runs the full hook
ceremony.  `Store.connect`, for contrast, runs its hooks exactly on the
disconnected-to-connected edge. -/
theorem store_disconnect_inverted_guard (n m k : Nat) :
    (storeDisconnect ⟨true, true, n, m, k⟩).2 =
      [StoreEvent.outletDisconnect, StoreEvent.baseDisconnect] ∧
    (storeDisconnect ⟨true, true, n, m, k⟩).1 = ⟨false, true, n, m, k⟩ ∧
    (storeDisconnect ⟨false, false, n, m, k⟩).2 =
      (List.range k).map StoreEvent.stopSubscription
        ++ [StoreEvent.inputsDisconnect, StoreEvent.outletDisconnect,
            StoreEvent.baseDisconnect]
        ++ (List.range m).map StoreEvent.onDisconnectHook ∧
    (storeConnect ⟨false, false, n, m, k⟩).2 =
      [StoreEvent.runSetup, StoreEvent.inputsConnect, StoreEvent.baseConnect,
        StoreEvent.outletConnect] ++ (List.range n).map StoreEvent.onConnectHook ∧
    (storeConnect ⟨true, true, n, m, k⟩).2 =
      [StoreEvent.baseConnect, StoreEvent.outletConnect] := by
  simp [storeConnect, storeDisconnect]

theorem flattenList_cons (x : Renderable) (xs : RenderableList) :
    flattenList (RenderableList.cons x xs) = flattenOne x ++ flattenList xs := by
  cases x <;> rfl

theorem mapM_childToMarkup_ok :
    ∀ l : List Renderable, l.all isValidChild = true →
      l.mapM childToMarkup = Except.ok (l.map specWrapChild) := by
  intro l
  induction l with
  | nil => intro _; rfl
  | cons x xs ih =>
    intro h
    rw [List.all_cons, Bool.and_eq_true] at h
    have hx : childToMarkup x = Except.ok (specWrapChild x) := by
      cases x <;> simp_all [isValidChild, childToMarkup, specWrapChild]
    rw [List.mapM_cons, hx, ih h.2]
    rfl

theorem mapM_childToMarkup_error :
    ∀ l : List Renderable, ¬(l.all isValidChild = true) →
      l.mapM childToMarkup = Except.error "Unexpected child type" := by
  intro l
  induction l with
  | nil => intro h; simp at h
  | cons x xs ih =>
    intro h
    rw [List.all_cons, Bool.and_eq_true] at h
    by_cases hx : isValidChild x = true
    · have hxs : ¬(xs.all isValidChild = true) := fun hh => h ⟨hx, hh⟩
      have hok : childToMarkup x = Except.ok (specWrapChild x) := by
        cases x <;> simp_all [isValidChild, childToMarkup, specWrapChild]
      rw [List.mapM_cons, hok, ih hxs]
      rfl
    · have herr : childToMarkup x = Except.error "Unexpected child type" := by
        cases x <;> simp_all [isValidChild, childToMarkup]
      rw [List.mapM_cons, herr]
      rfl

/-- C5: the markup builder's child handling.  Wrapping a child in an array
changes nothing (flattening is depth-unlimited); a markup child is returned
unchanged; when every kept entry is a markup node, string, number or
observable, the result wraps exactly those entries in order ($text nodes
for the non-markup ones); the `Unexpected child type` error is raised
exactly when some kept entry is of another kind; the filter drops exactly
`null`, `undefined` and `false` (in particular the number 0, the empty
string, and even `true` and arbitrary other values are kept); and the
concrete children `[0, ""]` produce the two corresponding `$text` nodes. -/
theorem markup_builder_children (c : Renderable) :
    toMarkup (Renderable.arr (RenderableList.cons c RenderableList.nil)) = toMarkup c ∧
    (∀ m, toMarkup (Renderable.markupVal m) = Except.ok [m]) ∧
    (((flattenOne c).filter keepChild).all isValidChild = true →
      toMarkup c = Except.ok (((flattenOne c).filter keepChild).map specWrapChild)) ∧
    (¬(((flattenOne c).filter keepChild).all isValidChild = true) →
      toMarkup c = Except.error "Unexpected child type") ∧
    keepChild Renderable.nullVal = false ∧
    keepChild Renderable.undefinedVal = false ∧
    keepChild (Renderable.boolVal false) = false ∧
    keepChild (Renderable.boolVal true) = true ∧
    (∀ s, keepChild (Renderable.strVal s) = true) ∧
    (∀ n, keepChild (Renderable.numVal n) = true) ∧
    (∀ r, keepChild (Renderable.readableVal r) = true) ∧
    (∀ m, keepChild (Renderable.markupVal m) = true) ∧
    (∀ o, keepChild (Renderable.otherVal o) = true) ∧
    toMarkup (Renderable.arr (RenderableList.cons (Renderable.numVal 0)
        (RenderableList.cons (Renderable.strVal "") RenderableList.nil))) =
      Except.ok [MarkupRef.textNode (TextSource.num 0),
        MarkupRef.textNode (TextSource.str "")] := by
  refine ⟨?_, fun m => rfl, ?_, ?_, rfl, rfl, rfl, rfl, fun _ => rfl, fun _ => rfl,
    fun _ => rfl, fun _ => rfl, fun _ => rfl, rfl⟩
  · unfold toMarkup
    have hflat : flattenOne (Renderable.arr (RenderableList.cons c RenderableList.nil)) =
        flattenOne c := by
      show flattenList (RenderableList.cons c RenderableList.nil) = flattenOne c
      rw [flattenList_cons]
      simp [flattenList]
    rw [hflat]
  · intro h
    exact mapM_childToMarkup_ok _ h
  · intro h
    exact mapM_childToMarkup_error _ h

/-- Witness for C5: a child that is neither markup, string, number nor
observable raises exactly the `Unexpected child type` error. -/
theorem markup_builder_children_witness :
    toMarkup (Renderable.otherVal 0) = Except.error "Unexpected child type" :=
  (markup_builder_children (Renderable.otherVal 0)).2.2.2.1 (by decide)

/-- C7: the spring helper's defaults resolve to exactly mass 2, stiffness
1200, damping 160, velocity 5, end-amplitude 0.001 and end-window 20 (both
with no options object and with an empty one); the solver computes
`1 − Position(t)` for the damped-harmonic-oscillator position exactly as
the spec states it (ζ = damping / (2·√(stiffness·mass)),
ω = √(stiffness/mass), underdamped branch for ζ < 1 with
ωd = ω·√(1−ζ²) and B = (ζω − v₀)/ωd, otherwise B = ω − v₀); and the value
written at time t is startValue + (endValue − startValue)·(1 − Position(t)). -/
theorem spring_defaults_and_solver (mass stiffness damping velocity start endv t : ℝ)
    (ht : 0 ≤ t) :
    resolveSpringOptions none = ⟨2, 1200, 160, 5, 0.001, 20⟩ ∧
    resolveSpringOptions (some ⟨none, none, none, none, none, none⟩) =
      ⟨2, 1200, 160, 5, 0.001, 20⟩ ∧
    springSolve mass stiffness damping velocity t =
      1 - specSpringPosition mass stiffness damping velocity t ∧
    springValueAt mass stiffness damping velocity start endv t =
      start + (endv - start) * (1 - specSpringPosition mass stiffness damping velocity t) := by
  have hsolve : springSolve mass stiffness damping velocity t =
      1 - specSpringPosition mass stiffness damping velocity t := by
    unfold springSolve specSpringPosition
    simp only [sub_eq_add_neg, pow_two]
    split <;> rfl
  refine ⟨rfl, rfl, hsolve, ?_⟩
  unfold springValueAt
  rw [hsolve]

/-- Witness for C7: the defaults and the solver identity at the default
parameters and time 0. -/
theorem spring_defaults_and_solver_witness :
    resolveSpringOptions none = ⟨2, 1200, 160, 5, 0.001, 20⟩ ∧
    springSolve 2 1200 160 5 0 = 1 - specSpringPosition 2 1200 160 5 0 :=
  ⟨(spring_defaults_and_solver 2 1200 160 5 0 1 0 (le_refl 0)).1,
   (spring_defaults_and_solver 2 1200 160 5 0 1 0 (le_refl 0)).2.2.1⟩

/-- C10: the spring's Writable-style setters are animated, not immediate.
`set(v)` is exactly `animateTo(v)` and `update(f)` is exactly
`animateTo(f(get()))`; without a reduced-motion preference the call leaves
the current value untouched (an immediate `get()` still returns the
pre-call value) while starting a fresh animation toward `v`; with reduced
motion it degrades to an immediate `snapTo(v)`; `snapTo` writes the value
at once and clears the animation; a stale animation frame (id no longer
current) writes nothing; the frame on which the measured amplitude is
truthy (nonzero) and below the threshold clears the animation and sets the
value to exactly the target; and a frame whose measured amplitude is
exactly 0 (falsy in the source's `amplitude.value &&` guard) keeps the
animation in flight and only writes the solver value. -/
theorem spring_setters_animate (s : SpringState) (rm : Bool) (v : ℝ) (f : ℝ → ℝ)
    (mass stiffness damping velocity endAmp : ℝ) (endWindow : ℕ)
    (anim : SpringAnimation) (samples : List ℝ) (t : ℝ) :
    springSet s rm v = springAnimateTo s rm v ∧
    springUpdate s rm f = springAnimateTo s rm (f s.currentValue) ∧
    (rm = false → (springSet s rm v).currentValue = s.currentValue ∧
      (springSet s rm v).currentAnimationId = some s.nextId ∧
      (springSet s rm v).animation = some ⟨s.nextId, s.currentValue, v⟩) ∧
    (rm = true → springSet s rm v = springSnapTo s v) ∧
    (springSnapTo s v).currentValue = v ∧
    (springSnapTo s v).currentAnimationId = none ∧
    (s.currentAnimationId ≠ some anim.id →
      springStep mass stiffness damping velocity endAmp endWindow anim samples s t =
        (s, samples)) ∧
    (∀ a, s.currentAnimationId = some anim.id →
      amplitudeValue (amplitudeSample samples
        (springSolve mass stiffness damping velocity t) endWindow) endWindow = some a →
      a ≠ 0 → a < endAmp →
      (springStep mass stiffness damping velocity endAmp endWindow anim samples
        s t).1.currentValue = anim.endValue ∧
      (springStep mass stiffness damping velocity endAmp endWindow anim samples
        s t).1.currentAnimationId = none) ∧
    (s.currentAnimationId = some anim.id →
      amplitudeValue (amplitudeSample samples
        (springSolve mass stiffness damping velocity t) endWindow) endWindow = some 0 →
      (springStep mass stiffness damping velocity endAmp endWindow anim samples
        s t).1.currentAnimationId = s.currentAnimationId ∧
      (springStep mass stiffness damping velocity endAmp endWindow anim samples
        s t).1.currentValue = anim.startValue +
          (anim.endValue - anim.startValue) * springSolve mass stiffness damping velocity t) := by
  refine ⟨rfl, rfl, ?_, ?_, rfl, rfl, ?_, ?_, ?_⟩
  · intro h
    subst h
    simp [springSet, springAnimateTo]
  · intro h
    subst h
    simp [springSet, springAnimateTo]
  · intro h
    simp [springStep, h]
  · intro a hid hampl hne hlt
    simp [springStep, hid, hampl, hne, hlt]
  · intro hid hampl
    simp [springStep, hid, hampl]

/-- Witness for C10: a concrete spring at value 0 — `set 1` without reduced
motion leaves the immediate value at 0; with reduced motion it snaps. -/
theorem spring_setters_animate_witness :
    (springSet ⟨0, none, 0, none⟩ false 1).currentValue = 0 ∧
    springSet ⟨0, none, 0, none⟩ true 1 = springSnapTo ⟨0, none, 0, none⟩ 1 :=
  ⟨((spring_setters_animate ⟨0, none, 0, none⟩ false 1 (fun x => x) 2 1200 160 5 0.001 20
      ⟨0, 0, 1⟩ [] 0).2.2.1 rfl).1,
   (spring_setters_animate ⟨0, none, 0, none⟩ true 1 (fun x => x) 2 1200 160 5 0.001 20
      ⟨0, 0, 1⟩ [] 0).2.2.2.1 rfl⟩

/-- C8 (code evidence): the view explorer's case converters never split
camel-case words, because line 218/246 passes the `SPLIT_REGEXP` ARRAY to
`String.prototype.replace`, which coerces it to the literal string
`"/([a-z0-9])([A-Z])/g,/([A-Z])([A-Z][a-z])/g"` and searches for that
substring (never present).  The embedded converters therefore yield
`"Myviewname"`/`"myviewname"` and `"Httprequestexample"`/
`"httprequestexample"` for the two identifiers — not the documented
`"My view name"`/`"my-view-name"` and `"HTTP request example"`/
`"http-request-example"`. -/
theorem viewExplorer_caseConversion_actual :
    sentenceCase "myViewName" = "Myviewname" ∧
    slugCase "myViewName" = "myviewname" ∧
    sentenceCase "HTTPRequestExample" = "Httprequestexample" ∧
    slugCase "HTTPRequestExample" = "httprequestexample" ∧
    sentenceCase "myViewName" ≠ "My view name" ∧
    slugCase "myViewName" ≠ "my-view-name" ∧
    sentenceCase "HTTPRequestExample" ≠ "HTTP request example" ∧
    slugCase "HTTPRequestExample" ≠ "http-request-example" := by
  decide

/-- C9 (code evidence): for a view file exporting a single function the
entry is pushed with name `"@default"`, but the helper object's `name` is
initialised to `sentenceCase("@default") = "Default"` (the `@` is stripped
and the word capitalised), so the `helpers.name === "@default"` comparison
on line 105 can never hold and the entry gets the extra `/default` slug
segment appended to the collection path. -/
theorem viewExplorer_defaultEntry_actual :
    sentenceCase "@default" = "Default" ∧
    formatSingleFnCollection "components/Button.view.jsx" =
      ⟨"Default", "/components/Button/default"⟩ ∧
    (formatSingleFnCollection "components/Button.view.jsx").name ≠ "@default" ∧
    (formatSingleFnCollection "components/Button.view.jsx").path ≠ "/components/Button" := by
  decide
